import Mathlib

/-!
Shallow embedding of the sandboxed-execution subsystem in
`app/services/sandbox.py`: the AST denylist validator (`SafeVisitor`,
`validate_code`) and the process-isolating orchestrator
(`execute_user_code`).  Python ASTs are embedded as inductive types; the
worker process's runtime behaviour (what `exec(code, restricted_globals)`
does, and when the worker finishes relative to the deadline) is abstracted
into a `WorkerRun` parameter, since Python evaluation itself is not part of
this subsystem's logic.
-/

namespace Spec2Proof

/-- `BLACKLIST_IMPORTS` from `app/services/sandbox.py`: forbidden top-level
module names. -/
def BLACKLIST_IMPORTS : List String :=
  ["os", "sys", "subprocess", "shutil", "builtins", "importlib", "socket",
   "requests", "urllib", "ftplib", "smtplib", "telnetlib", "http"]

/-- `BLACKLIST_FUNCTIONS` from `app/services/sandbox.py`: forbidden callable
names. -/
def BLACKLIST_FUNCTIONS : List String :=
  ["eval", "exec", "open", "compile", "globals", "locals", "super",
   "getattr", "setattr", "delattr", "input", "breakpoint", "help",
   "exit", "quit"]

/-- `s.startswith("__")` on an attribute name, computed on the character
list. -/
def startsWithDunder (s : String) : Bool :=
  "__".data.isPrefixOf s.data

/-- `name.split(chr(46))[0]`: the segment of a dotted module path before the
first dot. -/
def topLevelModule (name : String) : String :=
  String.mk (name.data.takeWhile (fun c => c != Char.ofNat 46))

/-- The violations `SafeVisitor` can raise (`SecurityViolation` carriers). -/
inductive Violation where
  | forbiddenImport (name : String)
  | forbiddenImportFrom (module : String)
  | forbiddenCall (id : String)
  | forbiddenAttribute
deriving DecidableEq, Repr

/-- Wraps a name in the single quotes the Python f-strings use. -/
def q (s : String) : String :=
  "'" ++ s ++ "'"

/-- The message attached to each `SecurityViolation` in the source. -/
def violationMessage : Violation → String
  | .forbiddenImport n => "Importing " ++ q n ++ " is not allowed."
  | .forbiddenImportFrom m => "Importing from " ++ q m ++ " is not allowed."
  | .forbiddenCall id => "Calling " ++ q id ++ " is not allowed."
  | .forbiddenAttribute => "Accessing private/dunder attributes is not allowed."

/- Embedded Python expressions: the node kinds `SafeVisitor` inspects
(`ast.Name`, constants, `ast.Attribute`, `ast.Call`), with argument lists as
a mutually inductive list so that all recursion below is structural. -/
mutual

inductive PyExpr where
  | name (id : String)
  | constant
  | attr (value : PyExpr) (attrName : String)
  | call (func : PyExpr) (args : PyExprList)

inductive PyExprList where
  | nil
  | cons (head : PyExpr) (tail : PyExprList)
end

/- Embedded Python statements: `ast.Import` (alias names), `ast.ImportFrom`
(optional module plus imported names), expression statements, `ast.Raise`,
`ast.While`, and `ast.Pass`. -/
mutual
inductive PyStmt where
  | importStmt (names : List String)
  | importFromStmt (module : Option String) (names : List String)
  | exprStmt (value : PyExpr)
  | raiseStmt (exc : Option PyExpr)
  | whileStmt (test : PyExpr) (body : PyStmtList)
  | passStmt

inductive PyStmtList where
  | nil
  | cons (head : PyStmt) (tail : PyStmtList)
end

/-- The check at the top of `SafeVisitor.visit_Call`: only a call whose
`func` is an `ast.Name` (`isinstance(node.func, ast.Name)`) is matched
against `BLACKLIST_FUNCTIONS`. -/
def callCheck : PyExpr → Option Violation
  | .name id => if id ∈ BLACKLIST_FUNCTIONS then some (.forbiddenCall id) else none
  | _ => none

/- `SafeVisitor` on expressions: each `visit_*` method raises on its own
check first and then `generic_visit` recurses into child nodes in field
order; the first raised `SecurityViolation` is returned. -/
mutual
def visitExpr : PyExpr → Option Violation
  | .name _ => none
  | .constant => none
  | .attr value attrName =>
      if startsWithDunder attrName then some .forbiddenAttribute
      else visitExpr value
  | .call func args =>
      match callCheck func with
      | some v => some v
      | none =>
          match visitExpr func with
          | some v => some v
          | none => visitExprList args

def visitExprList : PyExprList → Option Violation
  | .nil => none
  | .cons e es =>
      match visitExpr e with
      | some v => some v
      | none => visitExprList es
end

/-- First alias of an `ast.Import` whose top-level module name is
blacklisted, as the loop in `SafeVisitor.visit_Import` finds it. -/
def importCheck (names : List String) : Option Violation :=
  names.findSome? fun n =>
    if topLevelModule n ∈ BLACKLIST_IMPORTS then some (.forbiddenImport n) else none

/- `SafeVisitor` on statements (same convention as `visitExpr`). -/
mutual
def visitStmt : PyStmt → Option Violation
  | .importStmt names => importCheck names
  | .importFromStmt module _ =>
      match module with
      | some m =>
          if topLevelModule m ∈ BLACKLIST_IMPORTS then some (.forbiddenImportFrom m)
          else none
      | none => none
  | .exprStmt value => visitExpr value
  | .raiseStmt exc =>
      match exc with
      | some e => visitExpr e
      | none => none
  | .whileStmt test body =>
      match visitExpr test with
      | some v => some v
      | none => visitStmtList body
  | .passStmt => none

def visitStmtList : PyStmtList → Option Violation
  | .nil => none
  | .cons s ss =>
      match visitStmt s with
      | some v => some v
      | none => visitStmtList ss
end

/-- A submitted snippet, represented by its parse outcome: `ast.parse`
either raises a `SyntaxError` (with message) or yields the statement list
of the module. -/
structure Snippet where
  parse : Except String PyStmtList

/-- `validate_code` from `app/services/sandbox.py`: parse, then run
`SafeVisitor`; returns `none` when the snippet is accepted. -/
def validate_code (s : Snippet) : Option String :=
  match s.parse with
  | .error e => some ("Syntax Error: " ++ e)
  | .ok tree =>
      match visitStmtList tree with
      | some v => some ("Security Violation: " ++ violationMessage v)
      | none => none

/-- The restricted builtin table built inside `target`: the default builtin
names (`__builtins__`, passed in as a parameter since it is ambient state of
the interpreter) filtered by
`k not in BLACKLIST_FUNCTIONS and k != "__import__"`. -/
def safe_builtins (default_builtins : List String) : List String :=
  default_builtins.filter fun k =>
    !BLACKLIST_FUNCTIONS.contains k && k != "__import__"

/-- `restricted_globals = {"__builtins__": safe_builtins}`: the globals dict
handed to `exec`, as an association list with its single key. -/
def restricted_globals (default_builtins : List String) : List (String × List String) :=
  [("__builtins__", safe_builtins default_builtins)]

/-- Runtime behaviour of one worker process, abstracting what
`exec(code, restricted_globals)` does: it finishes at some time with output
and error text (`completes`), raises an `Exception` caught by the
`except Exception` handler which prints `trace` to the redirected stderr
(`raisesExc`), raises a `BaseException` that is not an `Exception` and so
escapes the handler (`raisesBase`), or never finishes (`diverges`).
`time` is the wall-clock moment, in the same units as the `timeout`
argument of `execute_user_code`, at which the worker would finish. -/
inductive WorkerRun where
  | completes (time : Nat) (out err : String)
  | raisesExc (time : Nat) (out err trace : String)
  | raisesBase (time : Nat) (out err : String)
  | diverges
deriving DecidableEq, Repr

/-- The dict returned by `execute_user_code`. -/
structure ExecResult where
  stdout : String
  stderr : String
  error : Bool
deriving DecidableEq, Repr

/-- `p.join(timeout); p.is_alive()` negated: whether the worker finished by
the deadline. `diverges` never finishes; the other runs finish exactly when
their finish time is within `timeout`. -/
def workerFinished (timeout : Nat) : WorkerRun → Bool
  | .completes time _ _ => time ≤ timeout
  | .raisesExc time _ _ _ => time ≤ timeout
  | .raisesBase time _ _ => time ≤ timeout
  | .diverges => false

/-- Contents of the shared `result` dict when the parent reads it back.
`target` assigns `result_dict["stdout"]`/`["stderr"]` only after the
`with`-block — after `exec` has returned or its `Exception` has been
handled — so the initial empty strings survive whenever the worker is
terminated first or dies to an escaping `BaseException`; when an
`Exception` was caught, `traceback.print_exc()` has appended `trace` to the
redirected stderr buffer. -/
def resultDict (timeout : Nat) : WorkerRun → String × String
  | .completes time out err => if time ≤ timeout then (out, err) else ("", "")
  | .raisesExc time out err trace => if time ≤ timeout then (out, err ++ trace) else ("", "")
  | .raisesBase _ _ _ => ("", "")
  | .diverges => ("", "")

/-- The parent's post-`join` logic in `execute_user_code`: on a live worker,
terminate it and report the timeout; otherwise report the published buffers
with `error = bool(result["stderr"])`. -/
def runWorker (timeout : Nat) (b : WorkerRun) : ExecResult :=
  let d := resultDict timeout b
  if workerFinished timeout b then
    { stdout := d.1, stderr := d.2, error := d.2 != "" }
  else
    { stdout := d.1, stderr := "Error: Execution timed out.", error := true }

/-- `execute_user_code` from `app/services/sandbox.py`: validate first and
return immediately on a violation; otherwise spawn the worker (whose
behaviour is the `WorkerRun` parameter) and shape the outcome. -/
def execute_user_code (s : Snippet) (b : WorkerRun) (timeout : Nat := 2) : ExecResult :=
  match validate_code s with
  | some e => { stdout := "", stderr := e, error := true }
  | none => runWorker timeout b

/- Whether a statement (list) contains an import node — plain or from-form —
whose top-level module name is blacklisted, anywhere in its body. -/
mutual

def stmtHasForbiddenImport : PyStmt → Bool
  | .importStmt names =>
      names.any fun n => decide (topLevelModule n ∈ BLACKLIST_IMPORTS)
  | .importFromStmt (some m) _ => decide (topLevelModule m ∈ BLACKLIST_IMPORTS)
  | .importFromStmt none _ => false
  | .whileStmt _ body => stmtListHasForbiddenImport body
  | .exprStmt _ => false
  | .raiseStmt _ => false
  | .passStmt => false

def stmtListHasForbiddenImport : PyStmtList → Bool
  | .nil => false
  | .cons s ss => stmtHasForbiddenImport s || stmtListHasForbiddenImport ss
end

/-- Modelled from the spec: the attribute allowlist of §3 — double-underscore
protocol names (construction, string conversion, iteration, arithmetic)
permitted despite the general dunder rule.  No such allowlist exists
anywhere in `app/services/sandbox.py`: `visit_Attribute` rejects every
attribute name starting with a double underscore. -/
def ALLOWED_DUNDER_ATTRIBUTES : List String :=
  ["__init__", "__new__", "__str__", "__repr__", "__iter__", "__next__",
   "__add__", "__sub__", "__mul__", "__truediv__"]

/-- The restricted built-in table as the spec's words describe it: the full
default set minus the forbidden-callable set (and nothing else). -/
def spec_restricted_table (default_builtins : List String) : List String :=
  default_builtins.filter fun k => !BLACKLIST_FUNCTIONS.contains k

/-- A snippet nesting `import os.path` inside a loop body
(`while True: import os.path`). -/
def nestedImportSnippetTree : PyStmtList :=
  .cons (.whileStmt .constant (.cons (.importStmt ["os.path"]) .nil)) .nil

/-- `while True: pass`, the non-terminating loop snippet of the test
suite. -/
def infiniteLoopSnippet : Snippet :=
  ⟨.ok (.cons (.whileStmt .constant (.cons .passStmt .nil)) .nil)⟩

/-- `print(...)` of a constant: a snippet that only writes to stdout. -/
def printSnippet : Snippet :=
  ⟨.ok (.cons (.exprStmt (.call (.name "print") (.cons .constant .nil))) .nil)⟩

/-- `raise ValueError()`: a snippet that raises a runtime error. -/
def raiseValueErrorSnippet : Snippet :=
  ⟨.ok (.cons (.raiseStmt (some (.call (.name "ValueError") .nil))) .nil)⟩

/-- `raise SystemExit`: no denylist matches it (`SystemExit` is not a
blacklisted callable and no dunder attribute is touched), so validation
accepts the snippet. -/
def systemExitSnippet : Snippet :=
  ⟨.ok (.cons (.raiseStmt (some (.name "SystemExit"))) .nil)⟩

theorem importCheck_isSome (names : List String)
    (h : (names.any fun n => decide (topLevelModule n ∈ BLACKLIST_IMPORTS)) = true) :
    (importCheck names).isSome = true := by
  induction names with
  | nil => simp at h
  | cons n rest ih =>
    rw [List.any_cons] at h
    unfold importCheck
    rw [List.findSome?_cons]
    rcases Bool.or_eq_true_iff.mp h with hn | hrest
    · rw [if_pos (of_decide_eq_true hn)]
      rfl
    · rcases hif : (if topLevelModule n ∈ BLACKLIST_IMPORTS then
          some (Violation.forbiddenImport n) else none) with _ | v
      · exact ih hrest
      · rfl

mutual

theorem visitStmt_isSome_of_forbiddenImport (s : PyStmt)
    (h : stmtHasForbiddenImport s = true) : (visitStmt s).isSome = true := by
  match s with
  | .importStmt names =>
      exact importCheck_isSome names h
  | .importFromStmt (some m) names =>
      show (if topLevelModule m ∈ BLACKLIST_IMPORTS then
          some (Violation.forbiddenImportFrom m) else none).isSome = true
      rw [if_pos (of_decide_eq_true h)]
      rfl
  | .importFromStmt none names => simp [stmtHasForbiddenImport] at h
  | .whileStmt test body =>
      unfold visitStmt
      rcases hv : visitExpr test with _ | v
      · exact visitStmtList_isSome_of_forbiddenImport body h
      · rfl
  | .exprStmt e => simp [stmtHasForbiddenImport] at h
  | .raiseStmt e => simp [stmtHasForbiddenImport] at h
  | .passStmt => simp [stmtHasForbiddenImport] at h

theorem visitStmtList_isSome_of_forbiddenImport (l : PyStmtList)
    (h : stmtListHasForbiddenImport l = true) : (visitStmtList l).isSome = true := by
  match l with
  | .nil => simp [stmtListHasForbiddenImport] at h
  | .cons s ss =>
      unfold visitStmtList
      rcases hs : visitStmt s with _ | v
      · rcases Bool.or_eq_true_iff.mp h with hhead | htail
        · have hsome := visitStmt_isSome_of_forbiddenImport s hhead
          rw [hs] at hsome
          simp at hsome
        · exact visitStmtList_isSome_of_forbiddenImport ss htail
      · rfl
end

theorem string_append_ne_empty_right (a b : String) (hb : b ≠ "") :
    a ++ b ≠ "" := by
  intro h
  apply hb
  have hd := congrArg String.data h
  rw [String.data_append] at hd
  rcases List.append_eq_nil.mp hd with ⟨-, hbnil⟩
  cases b
  simp_all

theorem blacklist_function_not_dunder (a : String) (h : a ∈ BLACKLIST_FUNCTIONS) :
    startsWithDunder a = false := by
  fin_cases h <;> rfl

/-- An unfinished worker never got to the two `result_dict` assignments, so
the dict's stdout slot still holds its initial empty string. -/
theorem resultDict_fst_of_not_finished (t : Nat) (b : WorkerRun)
    (h : workerFinished t b = false) : (resultDict t b).1 = "" := by
  cases b with
  | completes time out err =>
      simp only [workerFinished, decide_eq_false_iff_not] at h
      simp [resultDict, h]
  | raisesExc time out err trace =>
      simp only [workerFinished, decide_eq_false_iff_not] at h
      simp [resultDict, h]
  | raisesBase time out err => rfl
  | diverges => rfl

/-- C1: whenever validation returns a violation, `execute_user_code` returns
`{stdout: "", stderr: <the violation message>, error: true}` immediately;
the result is the same for every worker behaviour `b` and deadline `t`,
formalising that no worker process is created and validation strictly
precedes execution. -/
theorem c1_validation_precedes_execution (s : Snippet) (msg : String)
    (h : validate_code s = some msg) (b : WorkerRun) (t : Nat) :
    execute_user_code s b t = ⟨"", msg, true⟩ := by
  unfold execute_user_code
  rw [h]

/-- C1 witness: `import os` is rejected and the orchestrator returns the
violation verbatim, even against a diverging worker behaviour. -/
theorem c1_witness :
    execute_user_code ⟨.ok (.cons (.importStmt ["os"]) .nil)⟩ .diverges 2 =
      ⟨"", "Security Violation: Importing 'os' is not allowed.", true⟩ :=
  c1_validation_precedes_execution ⟨.ok (.cons (.importStmt ["os"]) .nil)⟩
    "Security Violation: Importing 'os' is not allowed." rfl .diverges 2

/-- C2 counterexample: `x.__str__` uses only the string-conversion protocol
method, which the spec's allowlist permits, yet `validate_code` rejects the
snippet with the forbidden-attribute violation. -/
theorem c2_counterexample :
    "__str__" ∈ ALLOWED_DUNDER_ATTRIBUTES ∧
    validate_code ⟨.ok (.cons (.exprStmt (.attr (.name "x") "__str__")) .nil)⟩ =
      some "Security Violation: Accessing private/dunder attributes is not allowed." :=
  ⟨by decide, rfl⟩

/-- C2 (amended): validation rejects an attribute access with the
forbidden-attribute violation exactly when the attribute name begins with a
double underscore — there is no attribute allowlist, so allowlisted protocol
methods such as `__str__` are rejected like any other dunder name. -/
theorem c2_dunder_attribute_rejection (x a : String) :
    validate_code ⟨.ok (.cons (.exprStmt (.attr (.name x) a)) .nil)⟩ =
      some ("Security Violation: " ++ violationMessage .forbiddenAttribute) ↔
    startsWithDunder a = true := by
  cases h : startsWithDunder a <;>
    simp [validate_code, visitStmtList, visitStmt, visitExpr, h]

/-- C3 counterexample: on a default builtin table containing `__import__`
(as CPython's does), the table built by the worker differs from the
spec-described one — `__import__` is not a forbidden callable, yet the
worker removes it too. -/
theorem c3_counterexample :
    safe_builtins ["print", "len", "__import__"] ≠
      spec_restricted_table ["print", "len", "__import__"] ∧
    "__import__" ∉ BLACKLIST_FUNCTIONS ∧
    "__import__" ∉ safe_builtins ["print", "len", "__import__"] := by
  refine ⟨?_, ?_, ?_⟩ <;> decide

/-- C3 (amended): the worker's restricted builtin table consists of exactly
the default names that are neither forbidden callables nor `__import__`
(which the worker additionally strips), and the globals handed to `exec`
contain the single key `__builtins__`. -/
theorem c3_restricted_builtins (d : List String) :
    (∀ k, k ∈ safe_builtins d ↔ k ∈ d ∧ k ∉ BLACKLIST_FUNCTIONS ∧ k ≠ "__import__") ∧
    (restricted_globals d).map Prod.fst = ["__builtins__"] := by
  refine ⟨fun k => ?_, rfl⟩
  simp [safe_builtins, List.mem_filter, and_assoc]

/-- C4: every parsed snippet containing an import — plain or from-form,
however deeply nested — whose top-level module name is blacklisted is
rejected: `execute_user_code` returns empty stdout, `error = true`, and a
security-violation message, for every worker behaviour and deadline. -/
theorem c4_forbidden_import_rejected (s : Snippet) (tree : PyStmtList)
    (hp : s.parse = .ok tree) (hi : stmtListHasForbiddenImport tree = true)
    (b : WorkerRun) (t : Nat) :
    (execute_user_code s b t).stdout = "" ∧
    (execute_user_code s b t).error = true ∧
    ∃ d, (execute_user_code s b t).stderr = "Security Violation: " ++ d := by
  obtain ⟨v, hv⟩ :=
    Option.isSome_iff_exists.mp (visitStmtList_isSome_of_forbiddenImport tree hi)
  have hval : validate_code s = some ("Security Violation: " ++ violationMessage v) := by
    simp only [validate_code, hp, hv]
  unfold execute_user_code
  rw [hval]
  exact ⟨rfl, rfl, violationMessage v, rfl⟩

/-- C4 witness: the nested `import os.path` snippet is rejected with a
security-violation message and empty stdout. -/
theorem c4_witness :
    (execute_user_code ⟨.ok nestedImportSnippetTree⟩ .diverges 2).stdout = "" ∧
    (execute_user_code ⟨.ok nestedImportSnippetTree⟩ .diverges 2).error = true ∧
    ∃ d, (execute_user_code ⟨.ok nestedImportSnippetTree⟩ .diverges 2).stderr =
      "Security Violation: " ++ d :=
  c4_forbidden_import_rejected ⟨.ok nestedImportSnippetTree⟩
    nestedImportSnippetTree rfl rfl .diverges 2

/-- C5: a call statement is rejected with the forbidden-call violation
exactly when its target is a bare name in `BLACKLIST_FUNCTIONS`; a call
whose target is an attribute access passes validation untouched even when
the attribute name itself is a forbidden callable name. -/
theorem c5_forbidden_call_check :
    (∀ id : String,
        validate_code ⟨.ok (.cons (.exprStmt (.call (.name id) .nil)) .nil)⟩ =
          some ("Security Violation: " ++ violationMessage (.forbiddenCall id)) ↔
        id ∈ BLACKLIST_FUNCTIONS) ∧
    (∀ x a : String, a ∈ BLACKLIST_FUNCTIONS →
        validate_code ⟨.ok (.cons (.exprStmt (.call (.attr (.name x) a) .nil)) .nil)⟩ =
          none) := by
  constructor
  · intro id
    by_cases h : id ∈ BLACKLIST_FUNCTIONS <;>
      simp [validate_code, visitStmtList, visitStmt, visitExpr, visitExprList,
        callCheck, h]
  · intro x a h
    have hd := blacklist_function_not_dunder a h
    simp [validate_code, visitStmtList, visitStmt, visitExpr, visitExprList,
      callCheck, hd]

/-- C5 witness: `x.eval()` — an attribute-qualified call whose attribute
name is the forbidden callable `eval` — passes validation. -/
theorem c5_witness :
    validate_code ⟨.ok (.cons (.exprStmt (.call (.attr (.name "x") "eval") .nil)) .nil)⟩ =
      none :=
  c5_forbidden_call_check.2 "x" "eval" (by decide)

/-- C6 counterexample: on the non-terminating-loop snippet with a
1-time-unit deadline the orchestrator does return `error = true`, but its
stderr is `"Error: Execution timed out."`, not the `"Execution timed out."`
the claim states. -/
theorem c6_counterexample :
    (execute_user_code infiniteLoopSnippet .diverges 1).error = true ∧
    (execute_user_code infiniteLoopSnippet .diverges 1).stderr ≠
      "Execution timed out." ∧
    (execute_user_code infiniteLoopSnippet .diverges 1).stderr =
      "Error: Execution timed out." := by
  refine ⟨rfl, ?_, rfl⟩
  decide

/-- C6 (amended): for every validated snippet whose worker does not finish
by the deadline (the behaviour of a non-terminating loop), the orchestrator
returns — rather than blocking on the worker — `error = true` and
stderr `"Error: Execution timed out."`, the result's only reflection of the
timeout (the returned dict has no separate timedOut field; the real-time
bound on the return is outside this model). -/
theorem c6_timeout_result (s : Snippet) (h : validate_code s = none) (t : Nat) :
    execute_user_code s .diverges t = ⟨"", "Error: Execution timed out.", true⟩ := by
  unfold execute_user_code
  rw [h]
  rfl

/-- C6 witness: the loop snippet with deadline 1. -/
theorem c6_witness :
    execute_user_code infiniteLoopSnippet .diverges 1 =
      ⟨"", "Error: Execution timed out.", true⟩ :=
  c6_timeout_result infiniteLoopSnippet rfl 1

/-- C7: a validated snippet whose worker finishes within the deadline
having written `out` to stdout and nothing to stderr yields
`{stdout: out, stderr: "", error: false}`. -/
theorem c7_clean_output (s : Snippet) (h : validate_code s = none)
    (time t : Nat) (ht : time ≤ t) (out : String) :
    execute_user_code s (.completes time out "") t = ⟨out, "", false⟩ := by
  unfold execute_user_code
  rw [h]
  simp [runWorker, resultDict, workerFinished, ht]

/-- C7 witness: the print snippet finishing at time 1 against deadline 2. -/
theorem c7_witness :
    execute_user_code printSnippet (.completes 1 "Hello\n" "") 2 =
      ⟨"Hello\n", "", false⟩ :=
  c7_clean_output printSnippet rfl 1 2 (by decide) "Hello\n"

/-- C8: a validated snippet whose worker raises an uncaught `Exception`
within the deadline still produces a structured result (the orchestrator is
a total function): stderr is the error buffer with the traceback text
appended, and `error = true` because that stderr is non-empty (the
traceback text is non-empty). -/
theorem c8_runtime_error_reported (s : Snippet) (h : validate_code s = none)
    (time t : Nat) (ht : time ≤ t) (out err trace : String) (htr : trace ≠ "") :
    execute_user_code s (.raisesExc time out err trace) t =
      ⟨out, err ++ trace, true⟩ := by
  unfold execute_user_code
  rw [h]
  simp [runWorker, resultDict, workerFinished, ht,
    string_append_ne_empty_right err trace htr]

/-- C8 witness: the raising snippet with a one-line traceback text. -/
theorem c8_witness :
    execute_user_code raiseValueErrorSnippet
      (.raisesExc 1 "" "" "Traceback (most recent call last): ValueError") 2 =
      ⟨"", "Traceback (most recent call last): ValueError", true⟩ :=
  c8_runtime_error_reported raiseValueErrorSnippet rfl 1 2 (by decide)
    "" "" "Traceback (most recent call last): ValueError" (by decide)

/-- C9: on every timeout path — whenever the worker has not finished by the
deadline, whatever the snippet and however the worker would have behaved —
the returned stdout is exactly empty: the worker publishes its buffers into
the shared dict only after the snippet finishes, so the parent reads back
the initial empty value. -/
theorem c9_timeout_stdout_empty (s : Snippet) (b : WorkerRun) (t : Nat)
    (h : workerFinished t b = false) :
    (execute_user_code s b t).stdout = "" := by
  have hd := resultDict_fst_of_not_finished t b h
  unfold execute_user_code
  cases hv : validate_code s with
  | some e => rfl
  | none =>
      unfold runWorker
      rw [h]
      simpa using hd

/-- C9 witness: a worker that would finish at time 5 with output
`"Hello"` against deadline 2 — the published output never reaches the
parent, which reads back empty stdout. -/
theorem c9_witness :
    (execute_user_code printSnippet (.completes 5 "Hello" "") 2).stdout = "" :=
  c9_timeout_stdout_empty printSnippet (.completes 5 "Hello" "") 2 (by decide)

/-- C10: a validated snippet that raises a `BaseException` outside the
`Exception` hierarchy before the deadline escapes the worker's handler, so
the buffers are never published and the orchestrator returns
`{stdout: "", stderr: "", error: false}` — equal to the result of a clean
run with no output at all. -/
theorem c10_base_exception_silent (s : Snippet) (h : validate_code s = none)
    (time t : Nat) (ht : time ≤ t) (out err : String) :
    execute_user_code s (.raisesBase time out err) t = ⟨"", "", false⟩ ∧
    execute_user_code s (.raisesBase time out err) t =
      execute_user_code s (.completes time "" "") t := by
  unfold execute_user_code
  rw [h]
  constructor <;> simp [runWorker, resultDict, workerFinished, ht]

/-- C10 witness: `raise SystemExit` validating cleanly, with a worker that
dies to it at time 1 (deadline 2) after writing `"partial"` to stdout —
the caller still sees a silent success. -/
theorem c10_witness :
    execute_user_code systemExitSnippet (.raisesBase 1 "partial" "") 2 =
      ⟨"", "", false⟩ ∧
    execute_user_code systemExitSnippet (.raisesBase 1 "partial" "") 2 =
      execute_user_code systemExitSnippet (.completes 1 "" "") 2 :=
  c10_base_exception_silent systemExitSnippet rfl 1 2 (by decide) "partial" ""

end Spec2Proof
